import Mathlib

/-!
Shallow embedding of the phone-number-lookup tool (src/main.py) and proofs
about its derived heuristics: area-code decomposition, confidence scoring,
risk assessment, parse fallback, report assembly and determinism.

The numbering-plan library calls (parsing, geocoding, carrier, timezone,
country metadata) are external collaborators; their results enter the
embedding as explicit inputs.  Everything this repository's own code
computes from those results is translated here.
-/

set_option autoImplicit false

namespace PhoneLookup

/-- Python truthiness of a string: `bool(s)` is `True` iff `s` is non-empty. -/
def pyTruthy (s : String) : Bool := !s.isEmpty

/-- Python truthiness of an optional string: `None` is falsy, a string is
truthy iff non-empty. -/
def pyTruthyOpt : Option String → Bool
  | Option.none => false
  | Option.some s => !s.isEmpty

/-- Python slice `s[a:b]` (for `0 ≤ a ≤ b` within usual use). -/
def pySlice (s : String) (a b : Nat) : String :=
  String.mk ((s.toList.drop a).take (b - a))

/-- Python slice `s[a:]`. -/
def pySliceFrom (s : String) (a : Nat) : String :=
  String.mk (s.toList.drop a)

/-- The two fields of a parsed number that `get_area_code_info` reads
(`phone_number.country_code`, `phone_number.national_number`). -/
structure PhoneNumber where
  country_code : Nat
  national_number : Nat
  deriving DecidableEq

/-- Return value of `get_area_code_info` (src/main.py lines 42-47). -/
structure AreaCodeInfo where
  area_code : Option String
  exchange_code : Option String
  subscriber_number : Option String
  is_nanp_format : Bool
  deriving DecidableEq

/-- `get_area_code_info` (src/main.py lines 23-47).  `national_str` is
`str(phone_number.national_number)`, i.e. the decimal digit string. -/
def get_area_code_info (pn : PhoneNumber) : AreaCodeInfo :=
  let national_str := Nat.repr pn.national_number
  let nanp : Bool := pn.country_code == 1 && national_str.length == 10
  if nanp then
    { area_code := Option.some (pySlice national_str 0 3)
      exchange_code := Option.some (pySlice national_str 3 6)
      subscriber_number := Option.some (pySliceFrom national_str 6)
      is_nanp_format := nanp }
  else if 3 ≤ national_str.length then
    { area_code := if 3 ≤ national_str.length then Option.some (pySlice national_str 0 3) else Option.none
      exchange_code := if 6 ≤ national_str.length then Option.some (pySlice national_str 3 6) else Option.none
      subscriber_number := if 6 ≤ national_str.length then Option.some (pySliceFrom national_str 6) else Option.none
      is_nanp_format := nanp }
  else
    { area_code := Option.none
      exchange_code := Option.none
      subscriber_number := Option.none
      is_nanp_format := nanp }

/-- Return value of `get_enhanced_location_data` (src/main.py lines 62-69). -/
structure LocationData where
  primary_location : String
  location_spanish : Option String
  location_french : Option String
  city : Option String
  state_province : Option String
  location_confidence : String
  deriving DecidableEq

/-- `get_enhanced_location_data` (src/main.py lines 49-69), as a function of
the three geocoder results (`region_desc`, `region_desc_es`,
`region_desc_fr`).  `split(",")` is `String.splitOn ","`, `strip()` is
`String.trim`. -/
def get_enhanced_location_data (region_desc region_desc_es region_desc_fr : String) :
    LocationData :=
  let location_parts : List String := if pyTruthy region_desc then region_desc.splitOn "," else []
  let city : Option String :=
    match location_parts with
    | [] => Option.none
    | p :: _ => Option.some p.trim
  let state_province : Option String :=
    match location_parts with
    | _ :: p :: _ => Option.some p.trim
    | _ => Option.none
  { primary_location := region_desc
    location_spanish := if region_desc_es ≠ region_desc then Option.some region_desc_es else Option.none
    location_french := if region_desc_fr ≠ region_desc then Option.some region_desc_fr else Option.none
    city := city
    state_province := state_province
    location_confidence :=
      if pyTruthy region_desc && region_desc.contains ',' then "high"
      else if pyTruthy region_desc then "medium" else "low" }

/-- `calculate_confidence_score` (src/main.py lines 290-305), as a function of
the five dictionary fields it reads: `validation["is_valid_number"]`,
`geographic["primary_location"]`, `service_info["carrier_name"]`,
`geographic["area_code"]`, `geographic["city"]`. -/
def calculate_confidence_score (is_valid_number : Bool) (primary_location : String)
    (carrier_name : String) (area_code : Option String) (city : Option String) : Nat :=
  let score : Nat := 0
  let score := if is_valid_number then score + 30 else score
  let score := if pyTruthy primary_location then score + 25 else score
  let score := if pyTruthy carrier_name then score + 20 else score
  let score := if pyTruthyOpt area_code then score + 15 else score
  let score := if pyTruthyOpt city then score + 10 else score
  min score 100

/-- `calculate_confidence_score` at the level of the five presence signals
(validity, location truthy, carrier truthy, area code truthy, city truthy). -/
def confScoreSig (v l c a t : Bool) : Nat :=
  let score : Nat := 0
  let score := if v then score + 30 else score
  let score := if l then score + 25 else score
  let score := if c then score + 20 else score
  let score := if a then score + 15 else score
  let score := if t then score + 10 else score
  min score 100

/-- The confidence-score rule as the specification words it: a single
weighted sum of the five presence signals, clamped to a maximum of 100. -/
def confidence_score_spec (valid has_location has_carrier has_area_code has_city : Bool) : Nat :=
  min ((if valid then 30 else 0) + (if has_location then 25 else 0) +
    (if has_carrier then 20 else 0) + (if has_area_code then 15 else 0) +
    (if has_city then 10 else 0)) 100

/-- The Python enum constants mapped by `type_mapping`
(`phonenumbers.PhoneNumberType`). -/
inductive PhoneNumberType where
  | FIXED_LINE
  | MOBILE
  | FIXED_LINE_OR_MOBILE
  | VOIP
  | TOLL_FREE
  | PREMIUM_RATE
  | SHARED_COST
  | PERSONAL_NUMBER
  | PAGER
  | UAN
  | VOICEMAIL
  | UNKNOWN
  deriving DecidableEq

/-- Return value of `assess_number_risk` (src/main.py lines 328-332). -/
structure RiskAssessment where
  risk_level : String
  risk_factors : List String
  is_safe_to_call : Bool
  deriving DecidableEq

/-- `assess_number_risk` (src/main.py lines 307-332), as a function of
`num_type`, the one field of `geographic` it reads (`primary_location`),
and the one field of `validation` it reads (`is_valid_number`).  The
sequential reassignments of `risk_factors` / `risk_level` are modelled by
shadowed lets in source order. -/
def assess_number_risk (num_type : PhoneNumberType) (primary_location : String)
    (is_valid_number : Bool) : RiskAssessment :=
  let risk_factors : List String := []
  let risk_level : String := "LOW"
  let risk_factors := if !is_valid_number then risk_factors ++ ["Invalid number format"] else risk_factors
  let risk_level := if !is_valid_number then "HIGH" else risk_level
  let risk_factors := if num_type = PhoneNumberType.PREMIUM_RATE then
      risk_factors ++ ["Premium rate number - charges may apply"] else risk_factors
  let risk_level := if num_type = PhoneNumberType.PREMIUM_RATE then "MEDIUM" else risk_level
  let risk_factors := if num_type = PhoneNumberType.VOIP then
      risk_factors ++ ["VoIP number - location may not be accurate"] else risk_factors
  let risk_level := if num_type = PhoneNumberType.VOIP then
      (if risk_level = "LOW" then "MEDIUM" else risk_level) else risk_level
  let risk_factors := if !(pyTruthy primary_location) then
      risk_factors ++ ["Location information unavailable"] else risk_factors
  { risk_level := risk_level
    risk_factors := risk_factors
    is_safe_to_call := (risk_level == "LOW" || risk_level == "MEDIUM") && is_valid_number }

/-- The error message `enrich_phone` aborts with when both parse attempts
fail (src/main.py line 122). -/
def invalidInputMessage (e : String) : String := "❌ Invalid input: " ++ e

/-- The parse-and-fallback prologue of `enrich_phone` (src/main.py lines
113-122), instrumented with the list of default regions attempted.  `parse`
stands for `phonenumbers.parse(number_str, region)` returning either a
parsed number or a `NumberParseException` message; `analyze` stands for the
rest of the pipeline, which runs only on a successfully parsed number.
`sys.exit(message)` (a nonzero-exit abort that prints `message` and emits no
report) is modelled as `Except.error message`. -/
def enrich_phone_parse {PN R : Type} (parse : Option String → Except String PN)
    (analyze : PN → R) : Except String R × List (Option String) :=
  match parse Option.none with
  | Except.ok pn => (Except.ok (analyze pn), [Option.none])
  | Except.error _ =>
    match parse (Option.some "US") with
    | Except.ok pn => (Except.ok (analyze pn), [Option.none, Option.some "US"])
    | Except.error e => (Except.error (invalidInputMessage e), [Option.none, Option.some "US"])

/-! ### Report values and assembly -/

/-- A Python value as it appears in the report dictionaries. -/
inductive Value where
  | vStr : String → Value
  | vNat : Nat → Value
  | vBool : Bool → Value
  | vNone : Value
  | vList : List Value → Value
  | vDict : List (String × Value) → Value

/-- One report category: a Python dict of field name to value, modelled as an
association list in insertion order (Python dicts preserve insertion order). -/
abbrev Category : Type := List (String × Value)

/-- `d[k] = v` on an ordered dict: replace in place when the key exists,
append otherwise. -/
def setField (l : List (String × Value)) (k : String) (v : Value) :
    List (String × Value) :=
  match l with
  | [] => [(k, v)]
  | (k0, v0) :: rest => if k0 = k then (k, v) :: rest else (k0, v0) :: setField rest k v

/-- `d.get(k)` on an ordered dict. -/
def getEntry (l : List (String × Value)) (k : String) : Option Value :=
  match l with
  | [] => Option.none
  | (k0, v0) :: rest => if k0 = k then Option.some v0 else getEntry rest k

/-- `result[cat][k]` for a report whose category `cat` is a dict. -/
def reportField (r : List (String × Value)) (cat k : String) : Option Value :=
  match getEntry r cat with
  | Option.some (Value.vDict l) => getEntry l k
  | _ => Option.none

/-- `None`-or-string as a report value. -/
def optStrVal : Option String → Value
  | Option.none => Value.vNone
  | Option.some s => Value.vStr s

/-- The `analysis` dict (src/main.py lines 258-266): `total_data_points`
starts at 0 and is overwritten after assembly. -/
def analysisCategory (ts_utc ts_local : String) (confidence : Nat) (risk : Value) :
    Category :=
  [("lookup_timestamp_utc", Value.vStr ts_utc),
   ("lookup_timestamp_local", Value.vStr ts_local),
   ("data_sources", Value.vList [Value.vStr "libphonenumber", Value.vStr "pycountry", Value.vStr "pytz"]),
   ("analysis_version", Value.vStr "2.0"),
   ("total_data_points", Value.vNat 0),
   ("confidence_score", Value.vNat confidence),
   ("risk_assessment", risk)]

/-- The `result` dict of `enrich_phone` before the data-point count is filled
in (src/main.py lines 272-282). -/
def assembleResult (formats validation structureInfo geographic timezoneInfo
    serviceInfo technical examples : Category) (ts_utc ts_local : String)
    (confidence : Nat) (risk : Value) : List (String × Value) :=
  [("📱 NUMBER_FORMATS", Value.vDict formats),
   ("✅ VALIDATION", Value.vDict validation),
   ("🔢 STRUCTURE", Value.vDict structureInfo),
   ("🌍 GEOGRAPHIC_INFO", Value.vDict geographic),
   ("🕐 TIMEZONE_INFO", Value.vDict timezoneInfo),
   ("📡 SERVICE_INFO", Value.vDict serviceInfo),
   ("⚙️ TECHNICAL_DATA", Value.vDict technical),
   ("📋 EXAMPLES", Value.vDict examples),
   ("📊 ANALYSIS", Value.vDict (analysisCategory ts_utc ts_local confidence risk))]

/-- `len(section) if isinstance(section, dict) else` nothing: the contribution
of one report value to the data-point count. -/
def dictLen : Value → Nat
  | Value.vDict l => l.length
  | _ => 0

/-- `sum(len(section) for section in result.values() if isinstance(section, dict))`
(src/main.py line 285). -/
def totalDataPoints (r : List (String × Value)) : Nat :=
  (r.map (fun p => dictLen p.2)).sum

/-- `result["📊 ANALYSIS"]["total_data_points"] = total_points`
(src/main.py line 286): overwrite the count field in place, where
`total_points` is computed from the fully assembled report. -/
def finalizeReport (r : List (String × Value)) : List (String × Value) :=
  r.map (fun p =>
    if p.1 = "📊 ANALYSIS" then
      (p.1,
        match p.2 with
        | Value.vDict l => Value.vDict (setField l "total_data_points" (Value.vNat (totalDataPoints r)))
        | v => v)
    else p)

/-! ### The full `enrich_phone` pipeline after a successful parse -/

/-- `pycountry.countries.get(alpha_2=...)` result fields read by the code. -/
structure CountryRec where
  name : String
  official_name : Option String
  alpha_3 : String
  numeric : String

/-- `PhoneMetadata.metadata_for_region(...)` attribute reads performed by the
code (`getattr` with a default, hence the options). -/
structure MetaRec where
  natPrefixVal : Option String
  intlPrefixVal : Option String
  natPrefixForParsingVal : Option String
  preferredIntlPrefixVal : Option String
  natPrefixOptionalWhenFormatting : Bool

/-- Every external library lookup result `enrich_phone` consumes for one
parsed number.  The determinism claim fixes these across the two runs. -/
structure Lookups where
  input_number : String
  e164 : String
  international : String
  national : String
  rfc3966 : String
  is_valid : Bool
  is_possible : Bool
  is_valid_for_region : Bool
  possible_reason : String
  country_code : Nat
  national_number : Nat
  extension : Option String
  italian_leading_zero : Bool
  number_of_leading_zeros : Nat
  region_code : Option String
  country : Option CountryRec
  associated_regions : List String
  region_desc : String
  region_desc_es : String
  region_desc_fr : String
  tz_list : List String
  carrier_name : String
  num_type : PhoneNumberType
  meta : Option MetaRec
  example_mobile : Option (String × String)
  example_fixed_line : Option (String × String)
  example_toll_free : Option (String × String)
  example_premium_rate : Option (String × String)

/-- The wall clock: every value the code derives from `datetime.utcnow()`,
`datetime.now()` or `datetime.now(pytz.timezone(tz))`, indexed by timezone
name where applicable.  Local times are opaque data here; two runs differ
exactly in this structure. -/
structure Clock where
  utcnowIso : String
  nowLocalIso : String
  tzLocalIso : String → String
  tzLocal12h : String → String
  tzLocalDate : String → String
  tzUtcOffset : String → Value
  tzUtcOffsetStr : String → String
  tzIsDst : String → Bool
  tzName : String → String
  tzAbbrev : String → String

/-- `re.sub(r'[^0-9+]', '', number_str)` (src/main.py line 135). -/
def pyCleanNonDigits (s : String) : String :=
  String.mk (s.toList.filter (fun c => c.isDigit || c == '+'))

/-- The `formats` dict (src/main.py lines 129-136). -/
def formatsCategory (L : Lookups) : Category :=
  [("input_number", Value.vStr L.input_number),
   ("e164_format", Value.vStr L.e164),
   ("international_format", Value.vStr L.international),
   ("national_format", Value.vStr L.national),
   ("rfc3966_format", Value.vStr L.rfc3966),
   ("raw_input_cleaned", Value.vStr (pyCleanNonDigits L.input_number))]

/-- The `validation` dict (src/main.py lines 139-145). -/
def validationCategory (L : Lookups) : Category :=
  [("is_valid_number", Value.vBool L.is_valid),
   ("is_possible_number", Value.vBool L.is_possible),
   ("is_valid_for_region", Value.vBool L.is_valid_for_region),
   ("validation_result", Value.vStr (if L.is_valid then "VALID" else "INVALID")),
   ("possible_length_local_only", Value.vStr L.possible_reason)]

/-- The `structure` dict (src/main.py lines 148-158). -/
def structureCategory (L : Lookups) : Category :=
  [("country_code", Value.vNat L.country_code),
   ("national_number", Value.vNat L.national_number),
   ("national_number_length", Value.vNat (Nat.repr L.national_number).length),
   ("total_digits", Value.vNat (L.e164.toList.filter Char.isDigit).length),
   ("has_extension", Value.vBool L.extension.isSome),
   ("extension", optStrVal L.extension),
   ("has_italian_leading_zero", Value.vBool L.italian_leading_zero),
   ("number_of_leading_zeros", Value.vNat L.number_of_leading_zeros)]

/-- The base of the `geographic` dict (src/main.py lines 167-176), before the
location and area-code updates. -/
def geoBaseCategory (L : Lookups) : Category :=
  [("region_code", optStrVal L.region_code),
   ("country_name", match L.country with
     | Option.some c => Value.vStr c.name
     | Option.none => Value.vNone),
   ("country_official_name", match L.country with
     | Option.some c => optStrVal c.official_name
     | Option.none => Value.vNone),
   ("country_alpha_3", match L.country with
     | Option.some c => Value.vStr c.alpha_3
     | Option.none => Value.vNone),
   ("country_numeric_code", match L.country with
     | Option.some c => Value.vStr c.numeric
     | Option.none => Value.vNone),
   ("associated_regions", Value.vList (L.associated_regions.map Value.vStr)),
   ("region_count_for_country_code", Value.vNat L.associated_regions.length),
   ("is_multi_region_country_code", Value.vBool (decide (1 < L.associated_regions.length)))]

/-- The fields `geographic.update(location_data)` adds (src/main.py lines
62-69, 180). -/
def locationDataCategory (d : LocationData) : Category :=
  [("primary_location", Value.vStr d.primary_location),
   ("location_spanish", optStrVal d.location_spanish),
   ("location_french", optStrVal d.location_french),
   ("city", optStrVal d.city),
   ("state_province", optStrVal d.state_province),
   ("location_confidence", Value.vStr d.location_confidence)]

/-- The fields `geographic.update(area_info)` adds (src/main.py lines 42-47,
184). -/
def areaInfoCategory (i : AreaCodeInfo) : Category :=
  [("area_code", optStrVal i.area_code),
   ("exchange_code", optStrVal i.exchange_code),
   ("subscriber_number", optStrVal i.subscriber_number),
   ("is_nanp_format", Value.vBool i.is_nanp_format)]

/-- One entry of `all_timezone_details` (src/main.py lines 103-108). -/
def tzDetailEntry (clock : Clock) (t : String) : Value :=
  Value.vDict
    [("timezone", Value.vStr t),
     ("local_time", Value.vStr (clock.tzLocalIso t)),
     ("utc_offset", clock.tzUtcOffset t),
     ("abbreviation", Value.vStr (clock.tzAbbrev t))]

/-- `get_timezone_details` (src/main.py lines 71-111) as a function of the
timezone lookup result and the clock.  The `datetime.utcnow()` computed at
line 84 is never used and is omitted.  Dict `update`s with fresh keys append
in order. -/
def get_timezone_details (tz_list : List String) (clock : Clock) : Category :=
  let base : Category :=
    [("all_timezones", Value.vList (tz_list.map Value.vStr)),
     ("timezone_count", Value.vNat tz_list.length),
     ("primary_timezone", optStrVal tz_list.head?),
     ("spans_multiple_timezones", Value.vBool (decide (1 < tz_list.length)))]
  match tz_list with
  | [] => base
  | tz0 :: _ =>
    let base2 := base ++
      [("local_time", Value.vStr (clock.tzLocalIso tz0)),
       ("local_time_12h", Value.vStr (clock.tzLocal12h tz0)),
       ("local_date", Value.vStr (clock.tzLocalDate tz0)),
       ("utc_offset_hours", clock.tzUtcOffset tz0),
       ("utc_offset_string", Value.vStr (clock.tzUtcOffsetStr tz0)),
       ("is_dst", Value.vBool (clock.tzIsDst tz0)),
       ("timezone_name", Value.vStr (clock.tzName tz0)),
       ("timezone_abbreviation", Value.vStr (clock.tzAbbrev tz0))]
    if 1 < tz_list.length then
      base2 ++ [("all_timezone_details", Value.vList (tz_list.map (tzDetailEntry clock)))]
    else base2

/-- `type_mapping.get(num_type, "Unknown")` (src/main.py lines 199-212). -/
def typeMappingStr : PhoneNumberType → String
  | PhoneNumberType.FIXED_LINE => "Fixed Line"
  | PhoneNumberType.MOBILE => "Mobile"
  | PhoneNumberType.FIXED_LINE_OR_MOBILE => "Fixed Line or Mobile"
  | PhoneNumberType.VOIP => "VoIP"
  | PhoneNumberType.TOLL_FREE => "Toll Free"
  | PhoneNumberType.PREMIUM_RATE => "Premium Rate"
  | PhoneNumberType.SHARED_COST => "Shared Cost"
  | PhoneNumberType.PERSONAL_NUMBER => "Personal Number"
  | PhoneNumberType.PAGER => "Pager"
  | PhoneNumberType.UAN => "Universal Access Number"
  | PhoneNumberType.VOICEMAIL => "Voicemail"
  | PhoneNumberType.UNKNOWN => "Unknown"

/-- The integer value of each `phonenumbers.PhoneNumberType` constant, used
for `str(num_type)`. -/
def numTypeIntCode : PhoneNumberType → Nat
  | PhoneNumberType.FIXED_LINE => 0
  | PhoneNumberType.MOBILE => 1
  | PhoneNumberType.FIXED_LINE_OR_MOBILE => 2
  | PhoneNumberType.TOLL_FREE => 3
  | PhoneNumberType.PREMIUM_RATE => 4
  | PhoneNumberType.SHARED_COST => 5
  | PhoneNumberType.VOIP => 6
  | PhoneNumberType.PERSONAL_NUMBER => 7
  | PhoneNumberType.PAGER => 8
  | PhoneNumberType.UAN => 9
  | PhoneNumberType.VOICEMAIL => 10
  | PhoneNumberType.UNKNOWN => 99

/-- The `service_info` dict (src/main.py lines 214-227). -/
def serviceCategory (L : Lookups) : Category :=
  [("carrier_name", Value.vStr L.carrier_name),
   ("carrier_available", Value.vBool (pyTruthy L.carrier_name)),
   ("number_type", Value.vStr (typeMappingStr L.num_type)),
   ("number_type_code", Value.vStr (Nat.repr (numTypeIntCode L.num_type))),
   ("is_mobile", Value.vBool (decide (L.num_type = PhoneNumberType.MOBILE))),
   ("is_fixed_line", Value.vBool (decide (L.num_type = PhoneNumberType.FIXED_LINE))),
   ("is_fixed_or_mobile", Value.vBool (decide (L.num_type = PhoneNumberType.FIXED_LINE_OR_MOBILE))),
   ("is_voip", Value.vBool (decide (L.num_type = PhoneNumberType.VOIP))),
   ("is_toll_free", Value.vBool (decide (L.num_type = PhoneNumberType.TOLL_FREE))),
   ("is_premium_rate", Value.vBool (decide (L.num_type = PhoneNumberType.PREMIUM_RATE))),
   ("is_special_service", Value.vBool (decide (L.num_type = PhoneNumberType.PREMIUM_RATE ∨
      L.num_type = PhoneNumberType.SHARED_COST ∨ L.num_type = PhoneNumberType.UAN))),
   ("likely_billable", Value.vBool (decide (¬(L.num_type = PhoneNumberType.TOLL_FREE ∨
      L.num_type = PhoneNumberType.VOICEMAIL))))]

/-- The `technical` dict (src/main.py lines 233-241): attribute reads when
region metadata exists, the `getattr` defaults otherwise. -/
def technicalCategory (L : Lookups) : Category :=
  match L.meta with
  | Option.some m =>
    [("national_prefix", optStrVal m.natPrefixVal),
     ("international_prefix", optStrVal m.intlPrefixVal),
     ("national_prefix_for_parsing", optStrVal m.natPrefixForParsingVal),
     ("preferred_international_prefix", optStrVal m.preferredIntlPrefixVal),
     ("national_prefix_optional_when_formatting", Value.vBool m.natPrefixOptionalWhenFormatting)]
  | Option.none =>
    [("national_prefix", Value.vNone),
     ("international_prefix", Value.vNone),
     ("national_prefix_for_parsing", Value.vNone),
     ("preferred_international_prefix", Value.vNone),
     ("national_prefix_optional_when_formatting", Value.vBool false)]

/-- One iteration of the example-number loop (src/main.py lines 244-252): two
entries when an example exists, none otherwise.  The pair holds the national
and international formatted strings. -/
def exampleEntries (type_name : String) (ex : Option (String × String)) : Category :=
  match ex with
  | Option.none => []
  | Option.some p =>
    [("example_" ++ type_name ++ "_number", Value.vStr p.1),
     ("example_" ++ type_name ++ "_international", Value.vStr p.2)]

/-- The `examples` dict (src/main.py lines 244-252). -/
def examplesCategory (L : Lookups) : Category :=
  exampleEntries "mobile" L.example_mobile ++
  exampleEntries "fixed_line" L.example_fixed_line ++
  exampleEntries "toll_free" L.example_toll_free ++
  exampleEntries "premium_rate" L.example_premium_rate

/-- `assess_number_risk`'s return dict as a report value. -/
def riskAssessmentValue (r : RiskAssessment) : Value :=
  Value.vDict
    [("risk_level", Value.vStr r.risk_level),
     ("risk_factors", Value.vList (r.risk_factors.map Value.vStr)),
     ("is_safe_to_call", Value.vBool r.is_safe_to_call)]

/-- The body of `enrich_phone` after a successful parse (src/main.py lines
124-288): build every category from the external lookup results and the
clock, assemble, count data points and overwrite the count in place. -/
def buildReport (L : Lookups) (clock : Clock) : List (String × Value) :=
  let locD := get_enhanced_location_data L.region_desc L.region_desc_es L.region_desc_fr
  let areaI := get_area_code_info { country_code := L.country_code, national_number := L.national_number }
  let geographic := geoBaseCategory L ++ locationDataCategory locD ++ areaInfoCategory areaI
  let confidence := calculate_confidence_score L.is_valid locD.primary_location
    L.carrier_name areaI.area_code locD.city
  let risk := assess_number_risk L.num_type locD.primary_location L.is_valid
  finalizeReport (assembleResult (formatsCategory L) (validationCategory L)
    (structureCategory L) geographic (get_timezone_details L.tz_list clock)
    (serviceCategory L) (technicalCategory L) (examplesCategory L)
    clock.utcnowIso clock.nowLocalIso confidence (riskAssessmentValue risk))

/-- The report fields whose values are derived from the current time:
the two lookup timestamps and the local-time / local-date / DST-dependent
values of the timezone section. -/
def timeKeys : List String :=
  ["lookup_timestamp_utc", "lookup_timestamp_local", "local_time", "local_time_12h",
   "local_date", "utc_offset_hours", "utc_offset_string", "is_dst", "timezone_name",
   "timezone_abbreviation", "all_timezone_details"]

/-- Whether a field name is one of the clock-derived fields. -/
def isTimeKey (k : String) : Bool := timeKeys.contains k

/-- Remove the clock-derived fields from every category of a report. -/
def scrubTimeFields (r : List (String × Value)) : List (String × Value) :=
  r.map (fun p => (p.1,
    match p.2 with
    | Value.vDict l => Value.vDict (l.filter (fun f => !(isTimeKey f.1)))
    | v => v))

/-! ### Helper lemmas -/

/-- `calculate_confidence_score` factors through the five presence signals. -/
theorem calculate_eq_sig (v : Bool) (loc carr : String) (ac city : Option String) :
    calculate_confidence_score v loc carr ac city =
      confScoreSig v (pyTruthy loc) (pyTruthy carr) (pyTruthyOpt ac) (pyTruthyOpt city) := rfl

/-- The incremental score of the code equals the spec's clamped weighted sum. -/
theorem confScoreSig_eq_spec : ∀ v l c a t : Bool,
    confScoreSig v l c a t = confidence_score_spec v l c a t := by decide

/-- The signal-level score never exceeds 100. -/
theorem confScoreSig_le_hundred : ∀ v l c a t : Bool, confScoreSig v l c a t ≤ 100 := by
  decide

/-- The signal-level score is monotone in each signal. -/
theorem confScoreSig_mono : ∀ v1 v2 l1 l2 c1 c2 a1 a2 t1 t2 : Bool,
    v1 ≤ v2 → l1 ≤ l2 → c1 ≤ c2 → a1 ≤ a2 → t1 ≤ t2 →
    confScoreSig v1 l1 c1 a1 t1 ≤ confScoreSig v2 l2 c2 a2 t2 := by decide

/-- With the location signal present, the score is never 10. -/
theorem confScoreSig_loc_ne_ten : ∀ v c a t : Bool, confScoreSig v true c a t ≠ 10 := by
  decide

/-- With both the location and city signals absent, the score is never 10. -/
theorem confScoreSig_no_city_ne_ten : ∀ v c a : Bool, confScoreSig v false c a false ≠ 10 := by
  decide

/-! ### Claim theorems -/

/-- C1 (code_bug evidence): at the failing input — a number that fails
validation and is classified premium-rate — `assess_number_risk` returns
risk level MEDIUM, not HIGH: the premium-rate rule overwrites the HIGH that
the validation rule had just forced (it lacks the already-HIGH guard that
the VoIP rule has, src/main.py line 318 vs lines 322-323).  For contrast,
the same invalid number with any other type classification does return
HIGH. -/
theorem c1_invalid_premium_rate_gives_medium :
    assess_number_risk PhoneNumberType.PREMIUM_RATE "California" false =
      { risk_level := "MEDIUM"
        risk_factors := ["Invalid number format", "Premium rate number - charges may apply"]
        is_safe_to_call := false }
    ∧ (assess_number_risk PhoneNumberType.UNKNOWN "California" false).risk_level = "HIGH"
    ∧ (assess_number_risk PhoneNumberType.VOIP "California" false).risk_level = "HIGH" := by
  decide

/-- C2: `is_safe_to_call` equals (returned risk level is LOW or MEDIUM) AND
the number validates; in particular it is false whenever validation fails,
for every number type and geographic input. -/
theorem c2_is_safe_to_call (nt : PhoneNumberType) (loc : String) (v : Bool) :
    (assess_number_risk nt loc v).is_safe_to_call =
      (((assess_number_risk nt loc v).risk_level == "LOW" ||
        (assess_number_risk nt loc v).risk_level == "MEDIUM") && v)
    ∧ (assess_number_risk nt loc false).is_safe_to_call = false := by
  refine ⟨rfl, ?_⟩
  simp [assess_number_risk]

/-- C3: for every combination of the five input signals,
`calculate_confidence_score` returns exactly the weighted sum of the present
signals (30 valid + 25 location + 20 carrier + 15 area code + 10 city)
clamped to at most 100, and the result is always at most 100 (it is a `Nat`,
hence in [0,100]). -/
theorem c3_confidence_score_is_clamped_sum (v : Bool) (loc carr : String)
    (ac city : Option String) :
    calculate_confidence_score v loc carr ac city =
      confidence_score_spec v (pyTruthy loc) (pyTruthy carr) (pyTruthyOpt ac) (pyTruthyOpt city)
    ∧ calculate_confidence_score v loc carr ac city ≤ 100 := by
  rw [calculate_eq_sig]
  exact ⟨confScoreSig_eq_spec _ _ _ _ _, confScoreSig_le_hundred _ _ _ _ _⟩

/-- C8: the confidence score is monotone non-decreasing in the five signals:
if every signal present in the first assignment (validity, truthy location,
truthy carrier, truthy area code, truthy city) is also present in the
second, the second score is at least the first. -/
theorem c8_confidence_score_monotone
    (v1 v2 : Bool) (loc1 loc2 carr1 carr2 : String) (ac1 ac2 city1 city2 : Option String)
    (hv : v1 ≤ v2) (hl : pyTruthy loc1 ≤ pyTruthy loc2)
    (hc : pyTruthy carr1 ≤ pyTruthy carr2) (ha : pyTruthyOpt ac1 ≤ pyTruthyOpt ac2)
    (ht : pyTruthyOpt city1 ≤ pyTruthyOpt city2) :
    calculate_confidence_score v1 loc1 carr1 ac1 city1 ≤
      calculate_confidence_score v2 loc2 carr2 ac2 city2 := by
  rw [calculate_eq_sig, calculate_eq_sig]
  exact confScoreSig_mono _ _ _ _ _ _ _ _ _ _ hv hl hc ha ht

/-- Witness for C8 at concrete inputs: no signal present versus all five
present. -/
theorem c8_confidence_score_monotone_witness :
    calculate_confidence_score false "" "" Option.none Option.none ≤
      calculate_confidence_score true "San Francisco, CA" "Verizon"
        (Option.some "415") (Option.some "San Francisco") :=
  c8_confidence_score_monotone false true "" "San Francisco, CA" "" "Verizon"
    Option.none (Option.some "415") Option.none (Option.some "San Francisco")
    (by decide) (by decide) (by decide) (by decide) (by decide)

/-- C10: a truthy derived city forces a truthy primary location (the city is
cut from the geocoder string only when that string is non-empty), so the +10
city contribution never occurs without the +25 location contribution, and a
confidence score of exactly 10 is unreachable from the location pipeline's
outputs, for every validity/carrier/area-code signal. -/
theorem c10_score_ten_unreachable (rd es fr : String) (v : Bool) (carr : String)
    (ac : Option String) :
    pyTruthyOpt (get_enhanced_location_data rd es fr).city ≤
      pyTruthy (get_enhanced_location_data rd es fr).primary_location
    ∧ calculate_confidence_score v (get_enhanced_location_data rd es fr).primary_location
        carr ac (get_enhanced_location_data rd es fr).city ≠ 10 := by
  have hp : (get_enhanced_location_data rd es fr).primary_location = rd := rfl
  rw [calculate_eq_sig, hp]
  by_cases h : pyTruthy rd = true
  · constructor
    · rw [h]
      exact Bool.le_true _
    · rw [h]
      exact confScoreSig_loc_ne_ten _ _ _ _
  · have h0 : pyTruthy rd = false := by
      cases hb : pyTruthy rd
      · rfl
      · exact absurd hb h
    have hc : (get_enhanced_location_data rd es fr).city = Option.none := by
      simp [get_enhanced_location_data, h0]
    constructor
    · rw [hc]
      exact Bool.false_le _
    · rw [hc, h0]
      exact confScoreSig_no_city_ne_ten _ _ _

/-- The 3-3-4 slices of any string concatenate back to the string. -/
theorem pySlice_concat (s : String) :
    pySlice s 0 3 ++ pySlice s 3 6 ++ pySliceFrom s 6 = s := by
  show String.mk ((((s.toList.drop 0).take 3) ++ ((s.toList.drop 3).take 3)) ++ s.toList.drop 6) = s
  have h6 : s.toList.drop 6 = (s.toList.drop 3).drop 3 := (List.drop_drop 3 3 s.toList).symm
  rw [List.drop_zero, List.append_assoc, h6, List.take_append_drop, List.take_append_drop]
  rfl

/-- C4: for a parsed number with country calling code 1 and a 10-digit
national number, `get_area_code_info` returns the 3-3-4 split (area code,
exchange, subscriber) of the national digit string, and the three parts
concatenate back to that string. -/
theorem c4_nanp_three_three_four (pn : PhoneNumber) (h1 : pn.country_code = 1)
    (h2 : (Nat.repr pn.national_number).length = 10) :
    (get_area_code_info pn).area_code = Option.some (pySlice (Nat.repr pn.national_number) 0 3)
    ∧ (get_area_code_info pn).exchange_code = Option.some (pySlice (Nat.repr pn.national_number) 3 6)
    ∧ (get_area_code_info pn).subscriber_number = Option.some (pySliceFrom (Nat.repr pn.national_number) 6)
    ∧ (get_area_code_info pn).is_nanp_format = true
    ∧ (pySlice (Nat.repr pn.national_number) 0 3).length = 3
    ∧ (pySlice (Nat.repr pn.national_number) 3 6).length = 3
    ∧ (pySliceFrom (Nat.repr pn.national_number) 6).length = 4
    ∧ pySlice (Nat.repr pn.national_number) 0 3 ++ pySlice (Nat.repr pn.national_number) 3 6
        ++ pySliceFrom (Nat.repr pn.national_number) 6 = Nat.repr pn.national_number := by
  have hl : (Nat.repr pn.national_number).toList.length = 10 := h2
  have hb : (pn.country_code == 1 && (Nat.repr pn.national_number).length == 10) = true := by
    rw [h1, h2]
    decide
  have len1 : (pySlice (Nat.repr pn.national_number) 0 3).length = 3 := by
    show (((Nat.repr pn.national_number).toList.drop 0).take 3).length = 3
    rw [List.length_take, List.length_drop, hl]
    decide
  have len2 : (pySlice (Nat.repr pn.national_number) 3 6).length = 3 := by
    show (((Nat.repr pn.national_number).toList.drop 3).take 3).length = 3
    rw [List.length_take, List.length_drop, hl]
    decide
  have len3 : (pySliceFrom (Nat.repr pn.national_number) 6).length = 4 := by
    show (((Nat.repr pn.national_number).toList.drop 6)).length = 4
    rw [List.length_drop, hl]
  refine ⟨?_, ?_, ?_, ?_, len1, len2, len3, pySlice_concat _⟩ <;>
    simp [get_area_code_info, hb]

/-- Witness for C4 at the concrete NANP number +1 415 555 2671. -/
theorem c4_nanp_three_three_four_witness :
    (PhoneNumber.mk 1 4155552671).country_code = 1
    ∧ (Nat.repr (PhoneNumber.mk 1 4155552671).national_number).length = 10
    ∧ ((get_area_code_info (PhoneNumber.mk 1 4155552671)).area_code =
        Option.some (pySlice (Nat.repr 4155552671) 0 3)
      ∧ (get_area_code_info (PhoneNumber.mk 1 4155552671)).exchange_code =
        Option.some (pySlice (Nat.repr 4155552671) 3 6)
      ∧ (get_area_code_info (PhoneNumber.mk 1 4155552671)).subscriber_number =
        Option.some (pySliceFrom (Nat.repr 4155552671) 6)
      ∧ (get_area_code_info (PhoneNumber.mk 1 4155552671)).is_nanp_format = true
      ∧ (pySlice (Nat.repr 4155552671) 0 3).length = 3
      ∧ (pySlice (Nat.repr 4155552671) 3 6).length = 3
      ∧ (pySliceFrom (Nat.repr 4155552671) 6).length = 4
      ∧ pySlice (Nat.repr 4155552671) 0 3 ++ pySlice (Nat.repr 4155552671) 3 6
          ++ pySliceFrom (Nat.repr 4155552671) 6 = Nat.repr 4155552671) :=
  ⟨rfl, by decide, c4_nanp_three_three_four (PhoneNumber.mk 1 4155552671) rfl (by decide)⟩

/-- C5: outside the NANP case (calling code 1 with exactly 10 national
digits), `get_area_code_info` returns the first 3 digits as a best-effort
area code whenever at least 3 digits are present; with at least 6 digits it
additionally returns digits 4-6 as exchange and the rest as subscriber;
otherwise exchange and subscriber (and, below 3 digits, the area code) are
absent. -/
theorem c5_non_nanp_best_effort (pn : PhoneNumber)
    (h : ¬(pn.country_code = 1 ∧ (Nat.repr pn.national_number).length = 10)) :
    (3 ≤ (Nat.repr pn.national_number).length →
      (get_area_code_info pn).area_code = Option.some (pySlice (Nat.repr pn.national_number) 0 3))
    ∧ (6 ≤ (Nat.repr pn.national_number).length →
      (get_area_code_info pn).exchange_code = Option.some (pySlice (Nat.repr pn.national_number) 3 6)
      ∧ (get_area_code_info pn).subscriber_number = Option.some (pySliceFrom (Nat.repr pn.national_number) 6))
    ∧ ((Nat.repr pn.national_number).length < 6 →
      (get_area_code_info pn).exchange_code = Option.none
      ∧ (get_area_code_info pn).subscriber_number = Option.none)
    ∧ ((Nat.repr pn.national_number).length < 3 →
      (get_area_code_info pn).area_code = Option.none) := by
  have hb : (pn.country_code == 1 && (Nat.repr pn.national_number).length == 10) = false := by
    rcases Decidable.em (pn.country_code = 1) with h1 | h1
    · have h2 : (Nat.repr pn.national_number).length ≠ 10 := fun hh => h ⟨h1, hh⟩
      simp [h1, h2]
    · simp [h1]
  by_cases h3 : 3 ≤ (Nat.repr pn.national_number).length
  · by_cases h6 : 6 ≤ (Nat.repr pn.national_number).length
    · refine ⟨fun _ => ?_, fun _ => ⟨?_, ?_⟩, fun hlt => absurd h6 (by omega), fun hlt => absurd h3 (by omega)⟩ <;>
        simp [get_area_code_info, hb, h3, h6]
    · refine ⟨fun _ => ?_, fun hge => absurd hge h6, fun _ => ⟨?_, ?_⟩, fun hlt => absurd h3 (by omega)⟩ <;>
        simp [get_area_code_info, hb, h3, h6]
  · refine ⟨fun hge => absurd hge h3, fun hge => absurd (by omega : 3 ≤ (Nat.repr pn.national_number).length) h3,
      fun _ => ⟨?_, ?_⟩, fun _ => ?_⟩ <;>
      simp [get_area_code_info, hb, h3]

/-- Witness for C5 at the concrete non-NANP number +44 20 7946 0958. -/
theorem c5_non_nanp_best_effort_witness :
    (¬((PhoneNumber.mk 44 2079460958).country_code = 1
        ∧ (Nat.repr (PhoneNumber.mk 44 2079460958).national_number).length = 10))
    ∧ ((3 ≤ (Nat.repr 2079460958).length →
        (get_area_code_info (PhoneNumber.mk 44 2079460958)).area_code =
          Option.some (pySlice (Nat.repr 2079460958) 0 3))
      ∧ (6 ≤ (Nat.repr 2079460958).length →
        (get_area_code_info (PhoneNumber.mk 44 2079460958)).exchange_code =
          Option.some (pySlice (Nat.repr 2079460958) 3 6)
        ∧ (get_area_code_info (PhoneNumber.mk 44 2079460958)).subscriber_number =
          Option.some (pySliceFrom (Nat.repr 2079460958) 6))
      ∧ ((Nat.repr 2079460958).length < 6 →
        (get_area_code_info (PhoneNumber.mk 44 2079460958)).exchange_code = Option.none
        ∧ (get_area_code_info (PhoneNumber.mk 44 2079460958)).subscriber_number = Option.none)
      ∧ ((Nat.repr 2079460958).length < 3 →
        (get_area_code_info (PhoneNumber.mk 44 2079460958)).area_code = Option.none)) :=
  ⟨by decide, c5_non_nanp_best_effort (PhoneNumber.mk 44 2079460958) (by decide)⟩

/-- C7: `enrich_phone` attempts the parse first with no default region and,
only if that raises, once more with US as the default region; a success on
either attempt hands the parsed number to the analysis, and failure of both
aborts with the user-facing error message and no (partial) report — the
error result carries no report data and corresponds to the `sys.exit`
nonzero-exit path. -/
theorem c7_parse_fallback {PN R : Type} (parse : Option String → Except String PN)
    (analyze : PN → R) :
    ((enrich_phone_parse parse analyze).2 = [Option.none] ∨
      (enrich_phone_parse parse analyze).2 = [Option.none, Option.some "US"])
    ∧ (∀ pn, parse Option.none = Except.ok pn →
        enrich_phone_parse parse analyze = (Except.ok (analyze pn), [Option.none]))
    ∧ (∀ e pn, parse Option.none = Except.error e → parse (Option.some "US") = Except.ok pn →
        enrich_phone_parse parse analyze = (Except.ok (analyze pn), [Option.none, Option.some "US"]))
    ∧ (∀ e e2, parse Option.none = Except.error e → parse (Option.some "US") = Except.error e2 →
        enrich_phone_parse parse analyze =
          (Except.error (invalidInputMessage e2), [Option.none, Option.some "US"])) := by
  cases h1 : parse Option.none with
  | ok pn =>
    refine ⟨Or.inl (by simp [enrich_phone_parse, h1]), fun pn2 hok => ?_,
      fun e pn2 herr _ => absurd herr (by simp),
      fun e e2 herr _ => absurd herr (by simp)⟩
    injection hok with hpn
    subst hpn
    simp [enrich_phone_parse, h1]
  | error e0 =>
    cases h2 : parse (Option.some "US") with
    | ok pn =>
      refine ⟨Or.inr (by simp [enrich_phone_parse, h1, h2]),
        fun pn2 hok => absurd hok (by simp),
        fun e pn2 _ hok => ?_,
        fun e e2 _ herr => absurd herr (by simp)⟩
      injection hok with hpn
      subst hpn
      simp [enrich_phone_parse, h1, h2]
    | error e1 =>
      refine ⟨Or.inr (by simp [enrich_phone_parse, h1, h2]),
        fun pn2 hok => absurd hok (by simp),
        fun e pn2 _ hok => absurd hok (by simp),
        fun e e2 _ herr => ?_⟩
      injection herr with he
      subst he
      simp [enrich_phone_parse, h1, h2]

/-- A parse stub for the C7 witness: both attempts fail. -/
def c7WitnessParse : Option String → Except String Nat := fun r =>
  match r with
  | Option.none => Except.error "e1"
  | Option.some _ => Except.error "e2"

/-- Witness for C7: with both attempts failing, the run aborts with the
user-facing message built from the second error, after attempting exactly
the regions none and US. -/
theorem c7_parse_fallback_witness :
    enrich_phone_parse c7WitnessParse (fun n : Nat => n) =
      (Except.error (invalidInputMessage "e2"), [Option.none, Option.some "US"]) :=
  (c7_parse_fallback c7WitnessParse (fun n : Nat => n)).2.2.2 "e1" "e2" rfl rfl

/-- C6: the `total_data_points` field of the finished report equals the sum
of the entry counts of every mapping-valued category of the report, computed
after all nine categories — including the analysis category that holds the
count field itself — are assembled, and overwritten in place; the overwrite
preserves every category's entry count, so the stored value also equals the
count taken over the finished report. -/
theorem c6_total_data_points (formats validation structureInfo geographic timezoneInfo
    serviceInfo technical examples : Category) (ts_utc ts_local : String)
    (confidence : Nat) (risk : Value) :
    reportField
        (finalizeReport (assembleResult formats validation structureInfo geographic
          timezoneInfo serviceInfo technical examples ts_utc ts_local confidence risk))
        "📊 ANALYSIS" "total_data_points"
      = Option.some (Value.vNat (totalDataPoints (assembleResult formats validation
          structureInfo geographic timezoneInfo serviceInfo technical examples
          ts_utc ts_local confidence risk)))
    ∧ totalDataPoints (finalizeReport (assembleResult formats validation structureInfo
        geographic timezoneInfo serviceInfo technical examples ts_utc ts_local confidence risk))
      = totalDataPoints (assembleResult formats validation structureInfo geographic
          timezoneInfo serviceInfo technical examples ts_utc ts_local confidence risk) :=
  ⟨rfl, rfl⟩

/-- C9: `enrich_phone` is deterministic up to the clock: for one fixed set of
external lookup results, two runs with different clocks produce reports that
agree on every field outside the clock-derived ones (the two lookup
timestamps and the local-time / local-date / DST-dependent timezone
fields). -/
theorem c9_deterministic_up_to_clock (L : Lookups) (c1 c2 : Clock) :
    scrubTimeFields (buildReport L c1) = scrubTimeFields (buildReport L c2) := by
  obtain ⟨f1, f2, f3, f4, f5, f6, f7, f8, f9, f10, f11, f12, f13, f14, f15, f16, f17,
    f18, f19, f20, tzs, f22, f23, f24, f25, f26, f27, f28⟩ := L
  cases tzs with
  | nil => rfl
  | cons t rest =>
    cases rest with
    | nil => rfl
    | cons r rs =>
      have hgt : (1 : Nat) < (t :: r :: rs).length := by simp
      simp only [buildReport, get_timezone_details]
      rw [if_pos hgt, if_pos hgt]
      rfl

end PhoneLookup
